import Mathlib

/-!
Verification of the message multiplexing / request-response correlation layer
of the Highrise python bot SDK (`src/highrise/__init__.py`), against its
natural-language specification.

The Python module is shallowly embedded: the mutable class state of `Highrise`
(`_req_id` counter, `_req_id_registry` dict of single-slot queues) becomes an
explicit `CorrState`; each facade coroutine becomes a pure function from a
state to a list of emitted transport/scheduler steps plus the successor state.
Parts of the repository that the claims depend on but that are not present in
the source tree (the `models` payload classes, the cattrs tagged-union codec
from `_unions.py`, and the read-loop delivery/dispatch step from `__main__.py`)
are modelled from the specification, and are marked as such in their doc
comments.
-/

namespace Highrise

/-- Modelled from the spec: `Position` payload from the missing `models`
module; a point in the room.  Float coordinates are modelled as rationals,
since the codec only transports them structurally. -/
structure Position where
  x : Rat
  y : Rat
  z : Rat
deriving DecidableEq

/-- Modelled from the spec: `User` payload from the missing `models` module. -/
structure User where
  id : String
  username : String
deriving DecidableEq

/-- Modelled from the spec: `Item` payload (a tipped item) from the missing
`models` module; its fields are out of scope, one opaque identifier is kept. -/
structure Item where
  id : String
deriving DecidableEq

/-- Modelled from the spec: `SessionMetadata`, delivered once per successful
connection establishment; informational only to this core. -/
structure SessionMetadata where
  user_id : String
deriving DecidableEq

/-- The `Incoming` tagged union exactly as enumerated in
`src/highrise/__init__.py` (lines 177-189); the per-variant fields are
modelled from the spec since the `models` module is not under `src/`. -/
inductive Incoming
  | error (message : String) (rid : Option String)
  | getRoomUsersResponse (content : List (User × Position)) (rid : String)
  | chatEvent (user : User) (message : String) (whisper : Bool)
  | emoteEvent (user : User) (emote_id : String) (receiver : Option User)
  | userJoinedEvent (user : User)
  | userLeftEvent (user : User)
  | channelEvent (message : String) (tags : List String)
  | tipReactionEvent (sender : User) (receiver : User) (item : Item)
  | indicatorResponse (rid : Option String)
  | channelResponse (rid : Option String)
  | teleportResponse (rid : Option String)
deriving DecidableEq

/-- The `Outgoing` tagged union exactly as enumerated in
`src/highrise/__init__.py` (lines 190-197); fields modelled from the spec. -/
inductive Outgoing
  | chatEvent (user : User) (message : String) (whisper : Bool)
  | channelEvent (message : String) (tags : List String)
  | getRoomUsersRequest (rid : String)
  | indicatorRequest (icon : Option String) (rid : Option String)
  | channelRequest (message : String) (tags : List String) (rid : Option String)
  | teleportRequest (user_id : String) (destination : Position) (rid : Option String)
deriving DecidableEq

/-- A JSON value, the frame shape both `ws.send_json` payloads and the cattrs
converter output take on the wire. -/
inductive JVal
  | str (s : String)
  | num (q : Rat)
  | bool (b : Bool)
  | null
  | arr (elems : List JVal)
  | obj (fields : List (String × JVal))

/-- Field lookup in a JSON object, first binding wins (encoders below never
produce duplicate keys). -/
def getF (fs : List (String × JVal)) (k : String) : Option JVal :=
  match fs with
  | [] => none
  | (k', v) :: rest => if k' = k then some v else getF rest k

/-- Whether a JSON object carries a given key. -/
def hasKey (fs : List (String × JVal)) (k : String) : Bool :=
  match fs with
  | [] => false
  | (k', _) :: rest => if k' = k then true else hasKey rest k

def encOptStr : Option String → JVal
  | none => JVal.null
  | some s => JVal.str s

def encPos (p : Position) : JVal :=
  JVal.obj [("x", JVal.num p.x), ("y", JVal.num p.y), ("z", JVal.num p.z)]

def encUser (u : User) : JVal :=
  JVal.obj [("id", JVal.str u.id), ("username", JVal.str u.username)]

def encItem (i : Item) : JVal :=
  JVal.obj [("id", JVal.str i.id)]

def encOptUser : Option User → JVal
  | none => JVal.null
  | some u => encUser u

def encUserPos (up : User × Position) : JVal :=
  JVal.arr [encUser up.1, encPos up.2]

/-- Modelled from the spec: the cattrs tagged-union encoder configured by the
missing `_unions.py` writes the discriminant under `_type` plus all variant
fields under their stable names (spec section 4.1). -/
def encodeIncoming : Incoming → JVal
  | .error message rid =>
      JVal.obj [("_type", JVal.str "Error"), ("message", JVal.str message),
                ("rid", encOptStr rid)]
  | .getRoomUsersResponse content rid =>
      JVal.obj [("_type", JVal.str "GetRoomUsersResponse"),
                ("content", JVal.arr (content.map encUserPos)),
                ("rid", JVal.str rid)]
  | .chatEvent user message whisper =>
      JVal.obj [("_type", JVal.str "ChatEvent"), ("user", encUser user),
                ("message", JVal.str message), ("whisper", JVal.bool whisper)]
  | .emoteEvent user emote_id receiver =>
      JVal.obj [("_type", JVal.str "EmoteEvent"), ("user", encUser user),
                ("emote_id", JVal.str emote_id), ("receiver", encOptUser receiver)]
  | .userJoinedEvent user =>
      JVal.obj [("_type", JVal.str "UserJoinedEvent"), ("user", encUser user)]
  | .userLeftEvent user =>
      JVal.obj [("_type", JVal.str "UserLeftEvent"), ("user", encUser user)]
  | .channelEvent message tags =>
      JVal.obj [("_type", JVal.str "ChannelEvent"), ("msg", JVal.str message),
                ("tags", JVal.arr (tags.map JVal.str))]
  | .tipReactionEvent sender receiver item =>
      JVal.obj [("_type", JVal.str "TipReactionEvent"), ("sender", encUser sender),
                ("receiver", encUser receiver), ("item", encItem item)]
  | .indicatorResponse rid =>
      JVal.obj [("_type", JVal.str "IndicatorResponse"), ("rid", encOptStr rid)]
  | .channelResponse rid =>
      JVal.obj [("_type", JVal.str "ChannelResponse"), ("rid", encOptStr rid)]
  | .teleportResponse rid =>
      JVal.obj [("_type", JVal.str "TeleportResponse"), ("rid", encOptStr rid)]

/-- Modelled from the spec: the tagged-union encoder for the `Outgoing`
direction (spec section 4.1). -/
def encodeOutgoing : Outgoing → JVal
  | .chatEvent user message whisper =>
      JVal.obj [("_type", JVal.str "ChatEvent"), ("user", encUser user),
                ("message", JVal.str message), ("whisper", JVal.bool whisper)]
  | .channelEvent message tags =>
      JVal.obj [("_type", JVal.str "ChannelEvent"), ("msg", JVal.str message),
                ("tags", JVal.arr (tags.map JVal.str))]
  | .getRoomUsersRequest rid =>
      JVal.obj [("_type", JVal.str "GetRoomUsersRequest"), ("rid", JVal.str rid)]
  | .indicatorRequest icon rid =>
      JVal.obj [("_type", JVal.str "IndicatorRequest"), ("icon", encOptStr icon),
                ("rid", encOptStr rid)]
  | .channelRequest message tags rid =>
      JVal.obj [("_type", JVal.str "ChannelRequest"), ("message", JVal.str message),
                ("tags", JVal.arr (tags.map JVal.str)), ("rid", encOptStr rid)]
  | .teleportRequest user_id destination rid =>
      JVal.obj [("_type", JVal.str "TeleportRequest"), ("user_id", JVal.str user_id),
                ("destination", encPos destination), ("rid", encOptStr rid)]

def decStr : JVal → Option String
  | .str s => some s
  | _ => none

def decOptStr : JVal → Option (Option String)
  | .null => some none
  | .str s => some (some s)
  | _ => none

def decRat : JVal → Option Rat
  | .num q => some q
  | _ => none

def decBool : JVal → Option Bool
  | .bool b => some b
  | _ => none

def decPos (v : JVal) : Option Position :=
  match v with
  | .obj fs => do
      let x ← (getF fs "x").bind decRat
      let y ← (getF fs "y").bind decRat
      let z ← (getF fs "z").bind decRat
      pure ⟨x, y, z⟩
  | _ => none

def decUser (v : JVal) : Option User :=
  match v with
  | .obj fs => do
      let i ← (getF fs "id").bind decStr
      let u ← (getF fs "username").bind decStr
      pure ⟨i, u⟩
  | _ => none

def decItem (v : JVal) : Option Item :=
  match v with
  | .obj fs => do
      let i ← (getF fs "id").bind decStr
      pure ⟨i⟩
  | _ => none

def decOptUser (v : JVal) : Option (Option User) :=
  match v with
  | .null => some none
  | _ => (decUser v).map some

def decStrList : List JVal → Option (List String)
  | [] => some []
  | v :: rest => do
      let s ← decStr v
      let tail ← decStrList rest
      pure (s :: tail)

def decUserPos (v : JVal) : Option (User × Position) :=
  match v with
  | .arr [uv, pv] => do
      let u ← decUser uv
      let p ← decPos pv
      pure (u, p)
  | _ => none

def decUserPosList : List JVal → Option (List (User × Position))
  | [] => some []
  | v :: rest => do
      let up ← decUserPos v
      let tail ← decUserPosList rest
      pure (up :: tail)

/-- Modelled from the spec: the tagged-union decoder reads the `_type`
discriminant first and dispatches to the matching variant field parser;
unknown tags or malformed fields fail (spec section 4.1). -/
def decodeIncoming (v : JVal) : Option Incoming :=
  match v with
  | .obj fs =>
    match (getF fs "_type").bind decStr with
    | some tag =>
      if tag = "Error" then do
        let message ← (getF fs "message").bind decStr
        let rid ← (getF fs "rid").bind decOptStr
        pure (.error message rid)
      else if tag = "GetRoomUsersResponse" then do
        let content ← match getF fs "content" with
          | some (JVal.arr elems) => decUserPosList elems
          | _ => none
        let rid ← (getF fs "rid").bind decStr
        pure (.getRoomUsersResponse content rid)
      else if tag = "ChatEvent" then do
        let user ← (getF fs "user").bind decUser
        let message ← (getF fs "message").bind decStr
        let whisper ← (getF fs "whisper").bind decBool
        pure (.chatEvent user message whisper)
      else if tag = "EmoteEvent" then do
        let user ← (getF fs "user").bind decUser
        let emote_id ← (getF fs "emote_id").bind decStr
        let receiver ← (getF fs "receiver").bind decOptUser
        pure (.emoteEvent user emote_id receiver)
      else if tag = "UserJoinedEvent" then do
        let user ← (getF fs "user").bind decUser
        pure (.userJoinedEvent user)
      else if tag = "UserLeftEvent" then do
        let user ← (getF fs "user").bind decUser
        pure (.userLeftEvent user)
      else if tag = "ChannelEvent" then do
        let message ← (getF fs "msg").bind decStr
        let tags ← match getF fs "tags" with
          | some (JVal.arr elems) => decStrList elems
          | _ => none
        pure (.channelEvent message tags)
      else if tag = "TipReactionEvent" then do
        let sender ← (getF fs "sender").bind decUser
        let receiver ← (getF fs "receiver").bind decUser
        let item ← (getF fs "item").bind decItem
        pure (.tipReactionEvent sender receiver item)
      else if tag = "IndicatorResponse" then do
        let rid ← (getF fs "rid").bind decOptStr
        pure (.indicatorResponse rid)
      else if tag = "ChannelResponse" then do
        let rid ← (getF fs "rid").bind decOptStr
        pure (.channelResponse rid)
      else if tag = "TeleportResponse" then do
        let rid ← (getF fs "rid").bind decOptStr
        pure (.teleportResponse rid)
      else none
    | none => none
  | _ => none

/-- Modelled from the spec: tagged-union decoder for the `Outgoing`
direction. -/
def decodeOutgoing (v : JVal) : Option Outgoing :=
  match v with
  | .obj fs =>
    match (getF fs "_type").bind decStr with
    | some tag =>
      if tag = "ChatEvent" then do
        let user ← (getF fs "user").bind decUser
        let message ← (getF fs "message").bind decStr
        let whisper ← (getF fs "whisper").bind decBool
        pure (.chatEvent user message whisper)
      else if tag = "ChannelEvent" then do
        let message ← (getF fs "msg").bind decStr
        let tags ← match getF fs "tags" with
          | some (JVal.arr elems) => decStrList elems
          | _ => none
        pure (.channelEvent message tags)
      else if tag = "GetRoomUsersRequest" then do
        let rid ← (getF fs "rid").bind decStr
        pure (.getRoomUsersRequest rid)
      else if tag = "IndicatorRequest" then do
        let icon ← (getF fs "icon").bind decOptStr
        let rid ← (getF fs "rid").bind decOptStr
        pure (.indicatorRequest icon rid)
      else if tag = "ChannelRequest" then do
        let message ← (getF fs "message").bind decStr
        let tags ← match getF fs "tags" with
          | some (JVal.arr elems) => decStrList elems
          | _ => none
        let rid ← (getF fs "rid").bind decOptStr
        pure (.channelRequest message tags rid)
      else if tag = "TeleportRequest" then do
        let user_id ← (getF fs "user_id").bind decStr
        let destination ← (getF fs "destination").bind decPos
        let rid ← (getF fs "rid").bind decOptStr
        pure (.teleportRequest user_id destination rid)
      else none
    | none => none
  | _ => none

/-- Characters of the decimal representation of `n`, most significant digit
first, computed with explicit fuel so that it is kernel-reducible.  Models
Python's `str()` applied to a nonnegative `int` (no sign, no leading zeros),
as used by `str(next(self._req_id))`. -/
def pyStrAux : Nat → Nat → List Char
  | 0, _ => []
  | fuel + 1, n =>
      if n = 0 then [] else pyStrAux fuel (n / 10) ++ [Nat.digitChar (n % 10)]

/-- Python's `str()` of a nonnegative integer: decimal digits, with `0`
rendered as `"0"`. -/
def pyStr (n : Nat) : String :=
  if n = 0 then "0" else String.mk (pyStrAux (n + 1) n)

theorem pyStrAux_eq_digits (fuel n : Nat) (h : n < fuel) :
    pyStrAux fuel n = ((Nat.digits 10 n).map Nat.digitChar).reverse := by
  induction fuel generalizing n with
  | zero => omega
  | succ fuel ih =>
      by_cases hn : n = 0
      · subst hn; simp [pyStrAux]
      · have hd : Nat.digits 10 n = n % 10 :: Nat.digits 10 (n / 10) :=
          Nat.digits_def' (by norm_num) (Nat.pos_of_ne_zero hn)
        have hlt : n / 10 < fuel := by
          have : n / 10 < n := Nat.div_lt_self (Nat.pos_of_ne_zero hn) (by norm_num)
          omega
        simp [pyStrAux, hn, hd, ih _ hlt]

theorem digitChar_inj_lt :
    ∀ a < 10, ∀ b < 10, Nat.digitChar a = Nat.digitChar b → a = b := by decide

theorem map_digitChar_inj (l₁ l₂ : List Nat) (h₁ : ∀ d ∈ l₁, d < 10)
    (h₂ : ∀ d ∈ l₂, d < 10)
    (h : l₁.map Nat.digitChar = l₂.map Nat.digitChar) : l₁ = l₂ := by
  induction l₁ generalizing l₂ with
  | nil => cases l₂ <;> simp_all
  | cons a t ih =>
      cases l₂ with
      | nil => simp_all
      | cons b t' =>
          simp only [List.map_cons, List.cons.injEq] at h
          have ha : a = b :=
            digitChar_inj_lt a (h₁ a (by simp)) b (h₂ b (by simp)) h.1
          have ht : t = t' := by
            refine ih t' (fun d hd => h₁ d (List.mem_cons_of_mem _ hd))
              (fun d hd => h₂ d (List.mem_cons_of_mem _ hd)) h.2
          simp [ha, ht]

theorem digits_ten_lt (n : Nat) : ∀ d ∈ Nat.digits 10 n, d < 10 :=
  fun _ hd => Nat.digits_lt_base (by norm_num) hd

theorem pyStr_zero_iff (n : Nat) : pyStr n = "0" ↔ n = 0 := by
  constructor
  · intro h
    by_contra hn
    rw [pyStr, if_neg hn, pyStrAux_eq_digits _ _ (Nat.lt_succ_self n)] at h
    have hchars : ((Nat.digits 10 n).map Nat.digitChar).reverse = ['0'] := by
      have := congrArg String.data h
      simpa using this
    have hmap : (Nat.digits 10 n).map Nat.digitChar = ['0'] := by
      have := congrArg List.reverse hchars
      simpa using this
    have hdig : Nat.digits 10 n = [0] := by
      refine map_digitChar_inj _ _ (digits_ten_lt n) (by simp) ?_
      simpa using hmap
    have hlast := Nat.getLast_digit_ne_zero 10 hn
    simp [hdig] at hlast
  · intro h; simp [pyStr, h]

theorem pyStr_injective : Function.Injective pyStr := by
  intro m n h
  by_cases hm : m = 0
  · subst hm
    have : pyStr n = "0" := by rw [← h]; simp [pyStr]
    exact ((pyStr_zero_iff n).mp this).symm
  · by_cases hn : n = 0
    · subst hn
      have : pyStr m = "0" := by rw [h]; simp [pyStr]
      exact (pyStr_zero_iff m).mp this
    · rw [pyStr, if_neg hm, pyStr, if_neg hn,
        pyStrAux_eq_digits _ _ (Nat.lt_succ_self m),
        pyStrAux_eq_digits _ _ (Nat.lt_succ_self n)] at h
      have hl : ((Nat.digits 10 m).map Nat.digitChar).reverse
          = ((Nat.digits 10 n).map Nat.digitChar).reverse := by
        have := congrArg String.data h
        simpa using this
      have hmap : (Nat.digits 10 m).map Nat.digitChar
          = (Nat.digits 10 n).map Nat.digitChar :=
        List.reverse_injective hl
      have hdig := map_digitChar_inj _ _ (digits_ten_lt m) (digits_ten_lt n) hmap
      exact Nat.digits.injective 10 hdig

/-- An observable step a facade coroutine or scheduled task performs: a dict
insertion into `_req_id_registry`, a `ws.send_str` of a codec frame, a
`ws.send_json` of a hand-built payload, an `await q.get()` on the single-slot
queue for a correlation id, an `asyncio.sleep`, or a callback invocation. -/
inductive Step
  | register (rid : String) (slot : Nat)
  | sendStr (frame : JVal)
  | sendJson (payload : JVal)
  | awaitSlot (rid : String) (slot : Nat)
  | sleepFor (delay : Rat)
  | invokeCallback

/-- The mutable class state of `Highrise`: the `_req_id` counter (`count()`
object, holding the next value it will yield) and the `_req_id_registry`
dict, modelled as an association list from correlation id to the slot index
of the single-slot `Queue` stored under it.  `slots` holds the queue
contents (each queue has capacity 1, so an `Option`). -/
structure CorrState where
  nextReqId : Nat
  registry : List (String × Nat)
  slots : List (Option Incoming)

/-- Dict lookup, as in `self._req_id_registry[rid]`. -/
def dictLookup (l : List (String × Nat)) (k : String) : Option Nat :=
  match l with
  | [] => none
  | (k', v) :: rest => if k' = k then some v else dictLookup rest k

/-- Removal of a key, as in `registry.pop(rid)`; drops every binding of the
key (the registry never holds duplicate keys, see the nodup theorems). -/
def dictErase (l : List (String × Nat)) (k : String) : List (String × Nat) :=
  l.filter (fun p => p.1 != k)

/-- Dict assignment `registry[rid] = q`: binds the key, replacing any
previous binding. -/
def dictInsert (l : List (String × Nat)) (k : String) (v : Nat) :
    List (String × Nat) :=
  (k, v) :: dictErase l k

/-- The keys currently bound in the registry. -/
def regKeys (l : List (String × Nat)) : List String := l.map Prod.fst

/-- The correlated request values `do_req_resp` is called with in
`src/highrise/__init__.py` (`IndicatorRequest`, `ChannelRequest`,
`TeleportRequest`), plus `GetRoomUsersRequest` for the parallel
`get_room_users` path. -/
inductive CorrReq
  | indicator (icon : Option String)
  | channel (message : String) (tags : List String)
  | teleport (user_id : String) (dest : Position)
  | getRoomUsers
deriving DecidableEq

/-- The effect of `req.rid = rid`: the outgoing value with the fresh
correlation id stamped onto its `rid` field. -/
def CorrReq.withRid : CorrReq → String → Outgoing
  | .indicator icon, rid => .indicatorRequest icon (some rid)
  | .channel message tags, rid => .channelRequest message tags (some rid)
  | .teleport user_id dest, rid => .teleportRequest user_id dest (some rid)
  | .getRoomUsers, rid => .getRoomUsersRequest rid

/-- The `rid` correlation field of an outgoing value. -/
def ridOfOutgoing : Outgoing → Option String
  | .chatEvent _ _ _ => none
  | .channelEvent _ _ => none
  | .getRoomUsersRequest rid => some rid
  | .indicatorRequest _ rid => rid
  | .channelRequest _ _ rid => rid
  | .teleportRequest _ _ rid => rid

/-- The result of one correlated request issue: the steps performed in
order, the successor state, the stamped correlation id and the slot index of
the queue the response will be delivered to. -/
structure ReqResult where
  steps : List Step
  state : CorrState
  rid : String
  slot : Nat

/-- Function `do_req_resp` from `src/highrise/__init__.py` lines 162-167:
`rid = str(next(hr._req_id))`, `req.rid = rid`,
`hr._req_id_registry[rid] = Queue(maxsize=1)`,
`await hr.ws.send_str(converter.dumps(req, Outgoing))`,
`return await q.get()`. -/
def do_req_resp (s : CorrState) (req : CorrReq) : ReqResult :=
  let rid := pyStr s.nextReqId
  let slot := s.slots.length
  { steps := [Step.register rid slot,
              Step.sendStr (encodeOutgoing (req.withRid rid)),
              Step.awaitSlot rid slot]
  , state := { nextReqId := s.nextReqId + 1
             , registry := dictInsert s.registry rid slot
             , slots := s.slots ++ [none] }
  , rid := rid
  , slot := slot }

/-- Method `Highrise.chat`: `await self.ws.send_json({"_type": "ChatRequest",
"message": message})`. -/
def chat (s : CorrState) (message : String) : List Step × CorrState :=
  ([Step.sendJson (JVal.obj [("_type", JVal.str "ChatRequest"),
                             ("message", JVal.str message)])], s)

/-- Method `Highrise.send_whisper`. -/
def send_whisper (s : CorrState) (user_id message : String) :
    List Step × CorrState :=
  ([Step.sendJson (JVal.obj [("_type", JVal.str "ChatRequest"),
                             ("message", JVal.str message),
                             ("whisper_target_id", JVal.str user_id)])], s)

/-- The payload dict `Highrise.send_emote` builds: the `target_user_id` key
is added only when the argument is not `None`. -/
def send_emote_payload (emote_id : String) (target_user_id : Option String) :
    List (String × JVal) :=
  let payload := [("_type", JVal.str "EmoteRequest"),
                  ("emote_id", JVal.str emote_id)]
  match target_user_id with
  | none => payload
  | some t => payload ++ [("target_user_id", JVal.str t)]

/-- Method `Highrise.send_emote`. -/
def send_emote (s : CorrState) (emote_id : String)
    (target_user_id : Option String) : List Step × CorrState :=
  ([Step.sendJson (JVal.obj (send_emote_payload emote_id target_user_id))], s)

/-- The `facing` literal of `Highrise.walk_to`. -/
inductive Facing
  | frontRight
  | frontLeft
  | backRight
  | backLeft
deriving DecidableEq

def facingStr : Facing → String
  | .frontRight => "FrontRight"
  | .frontLeft => "FrontLeft"
  | .backRight => "BackRight"
  | .backLeft => "BackLeft"

/-- Method `Highrise.walk_to`: `await self.ws.send_json({"_type": "FloorHitRequest",
"destination": dest, "facing": facing})` with `dest` a float triple. -/
def walk_to (s : CorrState) (dest : Rat × Rat × Rat) (facing : Facing) :
    List Step × CorrState :=
  ([Step.sendJson (JVal.obj
      [("_type", JVal.str "FloorHitRequest"),
       ("destination", JVal.arr [JVal.num dest.1, JVal.num dest.2.1,
                                 JVal.num dest.2.2]),
       ("facing", JVal.str (facingStr facing))])], s)

/-- Method `Highrise.set_indicator`: `return await do_req_resp(self,
IndicatorRequest(icon))`. -/
def set_indicator (s : CorrState) (icon : Option String) : ReqResult :=
  do_req_resp s (CorrReq.indicator icon)

/-- Method `Highrise.send_channel`: `return await do_req_resp(self,
ChannelRequest(message, tags))`. -/
def send_channel (s : CorrState) (message : String) (tags : List String) :
    ReqResult :=
  do_req_resp s (CorrReq.channel message tags)

/-- Method `Highrise.teleport`: `return await do_req_resp(self,
TeleportRequest(user_id, dest))`. -/
def teleport (s : CorrState) (user_id : String) (dest : Position) : ReqResult :=
  do_req_resp s (CorrReq.teleport user_id dest)

/-- Method `Highrise.get_room_users`, transcribed line by line from
`src/highrise/__init__.py` lines 135-141: `req_id = str(next(self._req_id))`,
`self._req_id_registry[req_id] = Queue(maxsize=1)`,
`await self.ws.send_str(converter.dumps(GetRoomUsersRequest(str(req_id)),
Outgoing))`, `return await q.get()`. -/
def get_room_users (s : CorrState) : ReqResult :=
  let req_id := pyStr s.nextReqId
  let slot := s.slots.length
  { steps := [Step.register req_id slot,
              Step.sendStr (encodeOutgoing (Outgoing.getRoomUsersRequest req_id)),
              Step.awaitSlot req_id slot]
  , state := { nextReqId := s.nextReqId + 1
             , registry := dictInsert s.registry req_id slot
             , slots := s.slots ++ [none] }
  , rid := req_id
  , slot := slot }

/-- The correlation id an incoming value carries, when it has one; events
carry none.  Modelled from the spec: the read loop treats a decoded value
with a `rid` matching a pending entry as a response. -/
def ridOfIncoming : Incoming → Option String
  | .error _ rid => rid
  | .getRoomUsersResponse _ rid => some rid
  | .indicatorResponse rid => rid
  | .channelResponse rid => rid
  | .teleportResponse rid => rid
  | _ => none

/-- Where the routing step sent an incoming value. -/
inductive RouteOutcome
  | delivered (rid : String) (slot : Nat)
  | dropped
  | event (m : Incoming)

/-- Modelled from the spec: the read-loop routing/delivery step, which lives
in the repository's `__main__` module and is not under `src/` (spec section
4.2): if the decoded value carries a correlation id with a live registry
entry, deliver it into that slot and remove the entry; if the id is unknown,
drop the value; otherwise hand it to the event dispatcher. -/
def deliver (s : CorrState) (m : Incoming) : CorrState × RouteOutcome :=
  match ridOfIncoming m with
  | some rid =>
      match dictLookup s.registry rid with
      | some slot =>
          ({ s with registry := dictErase s.registry rid
                  , slots := s.slots.set slot (some m) },
           RouteOutcome.delivered rid slot)
      | none => (s, RouteOutcome.dropped)
  | none => (s, RouteOutcome.event m)

/-- The value `await q.get()` returns once the slot has been filled. -/
def slotGet (s : CorrState) (i : Nat) : Option Incoming :=
  s.slots.getD i none

/-- Coroutine `_delayed_callback` from `src/highrise/__init__.py` lines 170-172:
`await sleep(delay)` then `await callback()`, as the trace of steps the
task performs. -/
def _delayed_callback (delay : Rat) : List Step :=
  [Step.sleepFor delay, Step.invokeCallback]

/-- The task-group state: the traces of the tasks created in `self.tg`, the
same `TaskGroup` that supervises the connection. -/
structure TgState where
  tasks : List (List Step)

/-- Method `Highrise.call_in`: `self.tg.create_task(_delayed_callback(callback,
delay))`. -/
def call_in (tg : TgState) (delay : Rat) : TgState :=
  { tasks := tg.tasks ++ [_delayed_callback delay] }

/-- Number of callback invocations in a task trace. -/
def countInvokes : List Step → Nat
  | [] => 0
  | Step.invokeCallback :: rest => countInvokes rest + 1
  | _ :: rest => countInvokes rest

/-- A bot handler's observable result: the facade steps it performs (the
default handlers perform none and return `None`). -/
def BotAction := List Step

/-- Class `BaseBot` from `src/highrise/__init__.py` lines 44-85: the fixed handler
capability set, each handler defaulting to a no-op (`pass`, returning
`None`). -/
structure BaseBot where
  on_start : SessionMetadata → BotAction := fun _ => []
  on_chat : User → String → BotAction := fun _ _ => []
  on_whisper : User → String → BotAction := fun _ _ => []
  on_emote : User → String → Option User → BotAction := fun _ _ _ => []
  on_user_join : User → BotAction := fun _ => []
  on_tip : User → User → Item → BotAction := fun _ _ _ => []
  on_channel : String → List String → BotAction := fun _ _ => []

/-- A `BaseBot` with every handler left at its default. -/
def defaultBot : BaseBot := {}

/-- The handler method names `BaseBot` defines, in source order
(`src/highrise/__init__.py` lines 44-85). -/
def baseBotHandlers : List String :=
  ["on_start", "on_chat", "on_whisper", "on_emote", "on_user_join",
   "on_tip", "on_channel"]

/-- Modelled from the spec: the handler names the event-dispatch table of
section 4.3 routes to, one per incoming event kind (the dispatching read
loop is not under `src/`). -/
def dispatchHandlerNames : List String :=
  ["on_chat", "on_whisper", "on_emote", "on_user_join", "on_user_left",
   "on_tip", "on_channel", "on_start"]

/-- The discriminant tag a frame carries, when it is a tagged object. -/
def frameTag : JVal → Option String
  | JVal.obj (("_type", JVal.str t) :: _) => some t
  | _ => none

/-- The discriminant tag the codec writes for each outgoing variant. -/
def outTag : Outgoing → String
  | .chatEvent _ _ _ => "ChatEvent"
  | .channelEvent _ _ => "ChannelEvent"
  | .getRoomUsersRequest _ => "GetRoomUsersRequest"
  | .indicatorRequest _ _ => "IndicatorRequest"
  | .channelRequest _ _ _ => "ChannelRequest"
  | .teleportRequest _ _ _ => "TeleportRequest"

theorem frameTag_encodeOutgoing (v : Outgoing) :
    frameTag (encodeOutgoing v) = some (outTag v) := by
  cases v <;> rfl

theorem outTag_mem (v : Outgoing) :
    outTag v ∈ ["ChatEvent", "ChannelEvent", "GetRoomUsersRequest",
                "IndicatorRequest", "ChannelRequest", "TeleportRequest"] := by
  cases v <;> simp [outTag]

theorem dictLookup_insert_self (l : List (String × Nat)) (k : String) (v : Nat) :
    dictLookup (dictInsert l k v) k = some v := by
  simp [dictInsert, dictLookup]

theorem dictLookup_erase_self (l : List (String × Nat)) (k : String) :
    dictLookup (dictErase l k) k = none := by
  induction l with
  | nil => rfl
  | cons p rest ih =>
      obtain ⟨k', v⟩ := p
      by_cases hp : k' = k
      · subst hp
        simpa [dictErase, List.filter_cons] using ih
      · have hb : (k' != k) = true := by simpa [bne_iff_ne] using hp
        simpa [dictErase, List.filter_cons, hb, dictLookup, hp] using ih

theorem set_concat_length (l : List (Option Incoming)) (v w : Option Incoming) :
    (l ++ [v]).set l.length w = l ++ [w] := by
  induction l with
  | nil => rfl
  | cons a t ih =>
      show a :: ((t ++ [v]).set t.length w) = a :: (t ++ [w])
      rw [ih]

theorem getD_concat_length (l : List (Option Incoming)) (w : Option Incoming) :
    (l ++ [w]).getD l.length none = w := by
  induction l with
  | nil => rfl
  | cons a t ih =>
      show (t ++ [w]).getD t.length none = w
      exact ih

theorem regKeys_erase_sublist (l : List (String × Nat)) (k : String) :
    (regKeys (dictErase l k)).Sublist (regKeys l) :=
  List.Sublist.map Prod.fst (List.filter_sublist l)

theorem not_mem_regKeys_erase (l : List (String × Nat)) (k : String) :
    k ∉ regKeys (dictErase l k) := by
  simp only [regKeys, dictErase, List.mem_map, List.mem_filter, bne_iff_ne,
    ne_eq]
  rintro ⟨p, ⟨_, hne⟩, rfl⟩
  exact hne rfl

theorem nodup_regKeys_insert (l : List (String × Nat)) (k : String) (v : Nat)
    (h : (regKeys l).Nodup) : (regKeys (dictInsert l k v)).Nodup := by
  simp only [dictInsert, regKeys, List.map_cons]
  exact List.nodup_cons.mpr ⟨not_mem_regKeys_erase l k,
    (regKeys_erase_sublist l k).nodup h⟩

theorem nodup_regKeys_erase (l : List (String × Nat)) (k : String)
    (h : (regKeys l).Nodup) : (regKeys (dictErase l k)).Nodup :=
  (regKeys_erase_sublist l k).nodup h

theorem decOptStr_enc (x : Option String) : decOptStr (encOptStr x) = some x := by
  cases x <;> rfl

theorem decUser_enc (u : User) : decUser (encUser u) = some u := rfl

theorem decPos_enc (p : Position) : decPos (encPos p) = some p := rfl

theorem decItem_enc (i : Item) : decItem (encItem i) = some i := rfl

theorem decOptUser_enc (x : Option User) : decOptUser (encOptUser x) = some x := by
  cases x <;> rfl

theorem decStrList_map (ts : List String) :
    decStrList (ts.map JVal.str) = some ts := by
  induction ts with
  | nil => rfl
  | cons a t ih => simp [decStrList, decStr, ih]

theorem decUserPos_enc (up : User × Position) :
    decUserPos (encUserPos up) = some up := rfl

theorem decUserPosList_map (l : List (User × Position)) :
    decUserPosList (l.map encUserPos) = some l := by
  induction l with
  | nil => rfl
  | cons a t ih => simp [decUserPosList, decUserPos_enc, ih]

/-- C1: for every correlated request completed through the correlator
(`do_req_resp`, and `teleport` in particular, which is `do_req_resp` on a
`TeleportRequest`): once the matching response has been delivered to the
request's single-slot delivery point (so that `await q.get()` returns it to
the caller), the registry entry for that correlation id has been removed, so
the registry no longer contains that id. -/
theorem registry_entry_removed_after_delivery (s : CorrState) (req : CorrReq)
    (m : Incoming) (h : ridOfIncoming m = some (do_req_resp s req).rid) :
    dictLookup (deliver (do_req_resp s req).state m).1.registry
        (do_req_resp s req).rid = none
    ∧ slotGet (deliver (do_req_resp s req).state m).1 (do_req_resp s req).slot
        = some m
    ∧ (∀ user_id dest, teleport s user_id dest
        = do_req_resp s (CorrReq.teleport user_id dest)) := by
  refine ⟨?_, ?_, fun _ _ => rfl⟩
  · simp only [do_req_resp] at h ⊢
    simp [deliver, h, dictLookup_insert_self, dictLookup_erase_self]
  · simp only [do_req_resp] at h ⊢
    simp [deliver, h, dictLookup_insert_self, slotGet, set_concat_length,
      getD_concat_length]

theorem registry_entry_removed_after_delivery_witness :
    ridOfIncoming (Incoming.indicatorResponse (some "0"))
        = some (do_req_resp ⟨0, [], []⟩ (CorrReq.indicator none)).rid
    ∧ (dictLookup
          (deliver (do_req_resp ⟨0, [], []⟩ (CorrReq.indicator none)).state
            (Incoming.indicatorResponse (some "0"))).1.registry
          (do_req_resp ⟨0, [], []⟩ (CorrReq.indicator none)).rid = none
       ∧ slotGet
            (deliver (do_req_resp ⟨0, [], []⟩ (CorrReq.indicator none)).state
              (Incoming.indicatorResponse (some "0"))).1
            (do_req_resp ⟨0, [], []⟩ (CorrReq.indicator none)).slot
          = some (Incoming.indicatorResponse (some "0"))
       ∧ (∀ user_id dest, teleport ⟨0, [], []⟩ user_id dest
            = do_req_resp ⟨0, [], []⟩ (CorrReq.teleport user_id dest))) :=
  ⟨by decide,
   registry_entry_removed_after_delivery ⟨0, [], []⟩ (CorrReq.indicator none)
     (Incoming.indicatorResponse (some "0")) (by decide)⟩

/-- C2: correlation ids come from the monotonically increasing `_req_id`
counter and are never reused: any request issued strictly after another (the
counter having advanced past the first issue) is stamped a different id, and
both the correlator's insert and the delivery step preserve the invariant
that the registry holds at most one entry per live correlation id (its keys
stay duplicate-free). -/
theorem correlation_ids_unique (s₁ s₂ : CorrState) (r₁ r₂ : CorrReq)
    (h : (do_req_resp s₁ r₁).state.nextReqId ≤ s₂.nextReqId) :
    (do_req_resp s₁ r₁).rid ≠ (do_req_resp s₂ r₂).rid
    ∧ ((regKeys s₁.registry).Nodup →
        (regKeys (do_req_resp s₁ r₁).state.registry).Nodup)
    ∧ (∀ m : Incoming, (regKeys s₁.registry).Nodup →
        (regKeys (deliver s₁ m).1.registry).Nodup) := by
  refine ⟨?_, ?_, ?_⟩
  · intro heq
    have hn : s₁.nextReqId = s₂.nextReqId := pyStr_injective heq
    simp only [do_req_resp] at h
    omega
  · intro hs
    simpa [do_req_resp] using nodup_regKeys_insert s₁.registry _ _ hs
  · intro m hs
    cases hr : ridOfIncoming m with
    | none => simpa [deliver, hr] using hs
    | some rid =>
        cases hl : dictLookup s₁.registry rid with
        | none => simpa [deliver, hr, hl] using hs
        | some slot =>
            simpa [deliver, hr, hl] using nodup_regKeys_erase s₁.registry rid hs

theorem correlation_ids_unique_witness :
    (do_req_resp ⟨0, [], []⟩ (CorrReq.indicator none)).state.nextReqId
        ≤ (1 : Nat)
    ∧ ((do_req_resp ⟨0, [], []⟩ (CorrReq.indicator none)).rid
          ≠ (do_req_resp ⟨1, [], []⟩ (CorrReq.channel "m" [])).rid
       ∧ ((regKeys (CorrState.mk 0 [] []).registry).Nodup →
            (regKeys (do_req_resp ⟨0, [], []⟩
              (CorrReq.indicator none)).state.registry).Nodup)
       ∧ (∀ m : Incoming, (regKeys (CorrState.mk 0 [] []).registry).Nodup →
            (regKeys (deliver ⟨0, [], []⟩ m).1.registry).Nodup)) :=
  ⟨by decide,
   correlation_ids_unique ⟨0, [], []⟩ ⟨1, [], []⟩ (CorrReq.indicator none)
     (CorrReq.channel "m" []) (by decide)⟩

/-- C3: the wire codec is symmetric: for every representable value of the
`Outgoing` union and of the `Incoming` union, decoding the frame produced by
encoding it yields the same value back. -/
theorem codec_round_trip (o : Outgoing) (i : Incoming) :
    decodeOutgoing (encodeOutgoing o) = some o
    ∧ decodeIncoming (encodeIncoming i) = some i := by
  constructor
  · cases o <;>
      simp [encodeOutgoing, decodeOutgoing, getF, decStr, decOptStr_enc,
        decStrList_map, decUser_enc, decPos_enc, decBool]
  · cases i <;>
      simp [encodeIncoming, decodeIncoming, getF, decStr, decOptStr_enc,
        decStrList_map, decUserPosList_map, decUser_enc, decPos_enc,
        decOptUser_enc, decItem_enc, decBool]

/-- C4: `do_req_resp` stamps the fresh correlation id (drawn from the
counter) onto the request's `rid` field, creates the single-slot delivery
point in the registry keyed by that id before the send step, then sends the
serialized request, and suspends on the slot; the first value delivered to
the slot — which may in particular be an `Error`, a member of the same
`Incoming` type every correlated call returns — is what the caller gets. -/
theorem do_req_resp_step_order (s : CorrState) (req : CorrReq) :
    (do_req_resp s req).rid = pyStr s.nextReqId
    ∧ (do_req_resp s req).state.nextReqId = s.nextReqId + 1
    ∧ (do_req_resp s req).steps =
        [Step.register (do_req_resp s req).rid (do_req_resp s req).slot,
         Step.sendStr (encodeOutgoing (req.withRid (do_req_resp s req).rid)),
         Step.awaitSlot (do_req_resp s req).rid (do_req_resp s req).slot]
    ∧ ridOfOutgoing (req.withRid (do_req_resp s req).rid)
        = some (do_req_resp s req).rid
    ∧ dictLookup (do_req_resp s req).state.registry (do_req_resp s req).rid
        = some (do_req_resp s req).slot
    ∧ slotGet (do_req_resp s req).state (do_req_resp s req).slot = none
    ∧ slotGet
        (deliver (do_req_resp s req).state
          (Incoming.error "boom" (some (do_req_resp s req).rid))).1
        (do_req_resp s req).slot
      = some (Incoming.error "boom" (some (do_req_resp s req).rid))
    ∧ (∀ icon, set_indicator s icon = do_req_resp s (CorrReq.indicator icon))
    ∧ (∀ message tags, send_channel s message tags
        = do_req_resp s (CorrReq.channel message tags)) := by
  refine ⟨rfl, rfl, ?_, ?_, ?_, ?_, ?_, fun _ => rfl, fun _ _ => rfl⟩
  · rfl
  · cases req <;> rfl
  · simp [do_req_resp, dictLookup_insert_self]
  · simp [do_req_resp, slotGet, getD_concat_length]
  · simp [do_req_resp, deliver, ridOfIncoming, dictLookup_insert_self,
      slotGet, set_concat_length, getD_concat_length]

/-- C5 counterexample: `chat` does not produce its frame through the wire
codec: the payload it sends for `chat("hi")` is a hand-built `ChatRequest`
object that is not the encoding of any value of the `Outgoing` union (the
union's tags do not include `ChatRequest`). -/
theorem chat_frame_not_codec_encoded :
    (chat ⟨0, [], []⟩ "hi").1
      = [Step.sendJson (JVal.obj [("_type", JVal.str "ChatRequest"),
                                  ("message", JVal.str "hi")])]
    ∧ ¬ ∃ v : Outgoing, encodeOutgoing v
        = JVal.obj [("_type", JVal.str "ChatRequest"),
                    ("message", JVal.str "hi")] := by
  refine ⟨rfl, ?_⟩
  rintro ⟨v, hv⟩
  have h1 := frameTag_encodeOutgoing v
  rw [hv] at h1
  simp only [frameTag, Option.some.injEq] at h1
  cases v <;> simp [outTag] at h1

/-- C5 amended: only the correlated facade calls (`set_indicator`,
`send_channel`, `teleport`, `get_room_users`) produce their frames through
the wire codec by encoding a value of the `Outgoing` union; the one-way
calls (`chat`, `send_whisper`, `send_emote`, `walk_to`) hand-build their
JSON payloads and pass them to `send_json`, bypassing the codec — their
tags (`ChatRequest`, `EmoteRequest`, `FloorHitRequest`) lie outside the
`Outgoing` union, as witnessed by the decoder rejecting each such payload. -/
theorem outbound_frames_codec_usage (s : CorrState) (icon : Option String)
    (message user_id emote_id : String) (tags : List String)
    (target : Option String) (dest : Position) (dest3 : Rat × Rat × Rat)
    (facing : Facing) :
    Step.sendStr (encodeOutgoing ((CorrReq.indicator icon).withRid
        (set_indicator s icon).rid)) ∈ (set_indicator s icon).steps
    ∧ Step.sendStr (encodeOutgoing ((CorrReq.channel message tags).withRid
        (send_channel s message tags).rid)) ∈ (send_channel s message tags).steps
    ∧ Step.sendStr (encodeOutgoing ((CorrReq.teleport user_id dest).withRid
        (teleport s user_id dest).rid)) ∈ (teleport s user_id dest).steps
    ∧ Step.sendStr (encodeOutgoing (Outgoing.getRoomUsersRequest
        (get_room_users s).rid)) ∈ (get_room_users s).steps
    ∧ (chat s message).1 = [Step.sendJson (JVal.obj
        [("_type", JVal.str "ChatRequest"), ("message", JVal.str message)])]
    ∧ decodeOutgoing (JVal.obj
        [("_type", JVal.str "ChatRequest"), ("message", JVal.str message)])
      = none
    ∧ (send_whisper s user_id message).1 = [Step.sendJson (JVal.obj
        [("_type", JVal.str "ChatRequest"), ("message", JVal.str message),
         ("whisper_target_id", JVal.str user_id)])]
    ∧ decodeOutgoing (JVal.obj
        [("_type", JVal.str "ChatRequest"), ("message", JVal.str message),
         ("whisper_target_id", JVal.str user_id)]) = none
    ∧ (send_emote s emote_id target).1
      = [Step.sendJson (JVal.obj (send_emote_payload emote_id target))]
    ∧ decodeOutgoing (JVal.obj (send_emote_payload emote_id target)) = none
    ∧ (walk_to s dest3 facing).1 = [Step.sendJson (JVal.obj
        [("_type", JVal.str "FloorHitRequest"),
         ("destination", JVal.arr [JVal.num dest3.1, JVal.num dest3.2.1,
                                   JVal.num dest3.2.2]),
         ("facing", JVal.str (facingStr facing))])]
    ∧ decodeOutgoing (JVal.obj
        [("_type", JVal.str "FloorHitRequest"),
         ("destination", JVal.arr [JVal.num dest3.1, JVal.num dest3.2.1,
                                   JVal.num dest3.2.2]),
         ("facing", JVal.str (facingStr facing))]) = none := by
  refine ⟨?_, ?_, ?_, ?_, rfl, rfl, rfl, rfl, rfl, ?_, rfl, rfl⟩
  · simp [set_indicator, do_req_resp]
  · simp [send_channel, do_req_resp]
  · simp [teleport, do_req_resp]
  · simp [get_room_users]
  · cases target <;> rfl

/-- C6: `get_room_users` follows exactly the correlator mechanics of
`do_req_resp` — next id from the same counter, a single-slot delivery point
registered in the same registry under that id, one encoded
`GetRoomUsersRequest` carrying that id sent, suspension on the slot — its
issue is literally equal to `do_req_resp` on the `GetRoomUsersRequest`
variant. -/
theorem get_room_users_refines_do_req_resp (s : CorrState) :
    get_room_users s = do_req_resp s CorrReq.getRoomUsers
    ∧ (get_room_users s).rid = pyStr s.nextReqId
    ∧ (get_room_users s).state.nextReqId = s.nextReqId + 1
    ∧ (get_room_users s).steps =
        [Step.register (get_room_users s).rid (get_room_users s).slot,
         Step.sendStr (encodeOutgoing
           (Outgoing.getRoomUsersRequest (get_room_users s).rid)),
         Step.awaitSlot (get_room_users s).rid (get_room_users s).slot]
    ∧ dictLookup (get_room_users s).state.registry (get_room_users s).rid
        = some (get_room_users s).slot := by
  refine ⟨rfl, rfl, rfl, rfl, ?_⟩
  simp [get_room_users, dictLookup_insert_self]

/-- C7: a one-way send such as `chat(message)` emits exactly one encoded
frame via `send_json`, performs no registration and no suspension on a
delivery slot, and leaves the whole correlator state — the id counter and
the registry — unchanged. -/
theorem chat_is_one_way (s : CorrState) (message : String) :
    chat s message
      = ([Step.sendJson (JVal.obj [("_type", JVal.str "ChatRequest"),
                                   ("message", JVal.str message)])], s)
    ∧ (chat s message).1.length = 1
    ∧ (chat s message).2.nextReqId = s.nextReqId
    ∧ (chat s message).2.registry = s.registry := by
  exact ⟨rfl, rfl, rfl, rfl⟩

/-- C8: `call_in(cb, delay)` creates exactly one new task, in the same task
group that supervises the connection; that task's trace is one sleep of the
requested delay followed by exactly one callback invocation, so the callback
runs once and only after the sleep has completed. -/
theorem call_in_schedules_once (tg : TgState) (delay : Rat) :
    (call_in tg delay).tasks = tg.tasks ++ [_delayed_callback delay]
    ∧ (call_in tg delay).tasks.length = tg.tasks.length + 1
    ∧ _delayed_callback delay = [Step.sleepFor delay, Step.invokeCallback]
    ∧ countInvokes (_delayed_callback delay) = 1
    ∧ (_delayed_callback delay).take 1 = [Step.sleepFor delay] := by
  exact ⟨rfl, by simp [call_in], rfl, rfl, rfl⟩

/-- C9 counterexample: the dispatch table of the spec routes the user-left
event to `on_user_left`, but `BaseBot` defines no `on_user_left` handler, so
the capability set does not include a handler for every dispatch-table
kind. -/
theorem on_user_left_missing :
    "on_user_left" ∈ dispatchHandlerNames
    ∧ "on_user_left" ∉ baseBotHandlers := by
  decide

/-- C9 amended: every handler `BaseBot` does define (`on_start`, `on_chat`,
`on_whisper`, `on_emote`, `on_user_join`, `on_tip`, `on_channel`) defaults
to a no-op that performs no action and returns `None`; the capability set
covers every kind of the dispatch table except the user-left kind, for which
`BaseBot` has no `on_user_left` handler. -/
theorem baseBot_defaults_are_noops :
    defaultBot.on_start = (fun _ => ([] : BotAction))
    ∧ defaultBot.on_chat = (fun _ _ => ([] : BotAction))
    ∧ defaultBot.on_whisper = (fun _ _ => ([] : BotAction))
    ∧ defaultBot.on_emote = (fun _ _ _ => ([] : BotAction))
    ∧ defaultBot.on_user_join = (fun _ => ([] : BotAction))
    ∧ defaultBot.on_tip = (fun _ _ _ => ([] : BotAction))
    ∧ defaultBot.on_channel = (fun _ _ => ([] : BotAction))
    ∧ (dispatchHandlerNames.filter (fun h => h != "on_user_left")).all
        (fun h => baseBotHandlers.contains h) = true
    ∧ baseBotHandlers.contains "on_user_left" = false := by
  exact ⟨rfl, rfl, rfl, rfl, rfl, rfl, rfl, by decide, by decide⟩

/-- C10: the payload `send_emote(emote_id, target_user_id)` sends has tag
`EmoteRequest` and the given `emote_id`; the `target_user_id` key is bound
to the given value exactly when the argument is not `None`, and is absent
entirely — not bound to null — when the argument is `None`. -/
theorem send_emote_payload_shape (s : CorrState) (emote_id : String)
    (target_user_id : Option String) :
    (send_emote s emote_id target_user_id).1
      = [Step.sendJson (JVal.obj (send_emote_payload emote_id target_user_id))]
    ∧ getF (send_emote_payload emote_id target_user_id) "_type"
        = some (JVal.str "EmoteRequest")
    ∧ getF (send_emote_payload emote_id target_user_id) "emote_id"
        = some (JVal.str emote_id)
    ∧ getF (send_emote_payload emote_id target_user_id) "target_user_id"
        = target_user_id.map JVal.str
    ∧ hasKey (send_emote_payload emote_id target_user_id) "target_user_id"
        = target_user_id.isSome
    ∧ (send_emote s emote_id target_user_id).2 = s := by
  cases target_user_id <;> exact ⟨rfl, rfl, rfl, rfl, rfl, rfl⟩

end Highrise
